import Mathlib

/-!
Shallow embedding of `src/runpod_client_helper.py`, a client helper for a
remote transcription API.  Network and filesystem effects are modelled by
oracle parameters (the responses the remote service would return, the byte
outcome an ffmpeg run would have, the size a file-system probe would
report), and by explicit effect traces where a claim is about which calls
are issued.  Machine floats are modelled over `ℚ`.
-/

namespace RunpodClient

/-- A decoded status-query response, as returned by
`get_transcription_status`: the mandatory `status` field and the optional
`output` payload (`status_response.get("output")`). -/
structure StatusResponse where
  status : String
  output : Option String
  deriving Repr, DecidableEq

/-- Result of the completion waiter: either the dict
`{"status": "COMPLETED", "output": ...}`, the raised
`NoOutputFromRunpodException` carrying the observed status string, or the
marker that the oracle ran out of responses while the loop would query
again (the real loop is `while True`, so this case never returns). -/
inductive WaitResult where
  | completed (output : Option String)
  | jobFailed (status : String)
  | ranOutOfResponses
  deriving Repr, DecidableEq

/-- Observable effects of one run of the waiter loop, in order: each
status query it issues and each `time.sleep(polling_interval)` it makes. -/
inductive WaiterEffect where
  | statusQuery
  | sleep (seconds : Nat)
  deriving Repr, DecidableEq

/-- `wait_for_transcription_completion` (lines 111–141).  The loop body:
query status; if the status is `IN_PROGRESS` or `IN_QUEUE`, sleep for
`polling_interval` and loop; if `COMPLETED`, return status and output;
otherwise raise `NoOutputFromRunpodException` with the status string.
The successive remote responses are the oracle list `responses`; the
returned trace records queries and sleeps in order. -/
def wait_for_transcription_completion
    (polling_interval : Nat) :
    List StatusResponse → WaitResult × List WaiterEffect
  | [] => (.ranOutOfResponses, [])
  | r :: rest =>
    if r.status = "IN_PROGRESS" ∨ r.status = "IN_QUEUE" then
      let (res, trace) := wait_for_transcription_completion polling_interval rest
      (res, .statusQuery :: .sleep polling_interval :: trace)
    else
      if r.status = "COMPLETED" then
        (.completed r.output, [.statusQuery])
      else
        (.jobFailed r.status, [.statusQuery])

/-- The JSON submission body built by `send_async_transcription_request`
(lines 72–80): the `input` object (string-valued fields) and the `policy`
object (numeric fields), each as an association list. -/
structure SubmitPayload where
  input : List (String × String)
  policy : List (String × Nat)
  deriving Repr, DecidableEq

/-- Payload construction of `send_async_transcription_request`
(lines 72–80): `payload_base64 = {"audio_base_64": s}`,
`payload_url = {"audio_url": s}`, `policy = {"executionTimeout": t}`,
selected by `s.startswith("http")`. -/
def build_submit_payload (base64_string_or_url : String)
    (execution_timeout : Nat) : SubmitPayload :=
  let payload_base64 := [("audio_base_64", base64_string_or_url)]
  let payload_url := [("audio_url", base64_string_or_url)]
  let policy := [("executionTimeout", execution_timeout)]
  if base64_string_or_url.startsWith "http" then
    { input := payload_url, policy := policy }
  else
    { input := payload_base64, policy := policy }

/-- `send_async_transcription_request` (lines 55–87): builds the payload,
posts it (the decoded remote response is the oracle `response`, an
association list of string fields) and returns `response["id"]`; a missing
`"id"` field is a Python `KeyError`, modelled as `.error`. -/
def send_async_transcription_request (base64_string_or_url : String)
    (execution_timeout : Nat) (response : List (String × String)) :
    SubmitPayload × Except String String :=
  (build_submit_payload base64_string_or_url execution_timeout,
    match response.lookup "id" with
    | some jobId => .ok jobId
    | none => .error "KeyError: id")

/-- The Python default of `execution_timeout` in
`send_async_transcription_request` (line 56): 600000 ms. -/
def default_execution_timeout : Nat := 600000

/-- `transcribe_audio` (lines 144–163): submits via
`send_async_transcription_request` — passing no execution timeout, so the
default applies — then waits via `wait_for_transcription_completion`.
Returns the submission payload it caused together with either the
propagated submission error or the waiter outcome. -/
def transcribe_audio (base64_string_or_url : String)
    (polling_interval : Nat) (submit_response : List (String × String))
    (status_responses : List StatusResponse) :
    SubmitPayload × Except String (WaitResult × List WaiterEffect) :=
  let (payload, jobId) :=
    send_async_transcription_request base64_string_or_url
      default_execution_timeout submit_response
  match jobId with
  | .error e => (payload, .error e)
  | .ok _ =>
    (payload,
      .ok (wait_for_transcription_completion polling_interval
        status_responses))

/-- The base64 alphabet used by Python's `base64.b64encode` /
`base64.b64decode` (standard alphabet, RFC 4648). -/
def b64chars : List Char :=
  ['A', 'B', 'C', 'D', 'E', 'F', 'G', 'H', 'I', 'J', 'K', 'L', 'M',
   'N', 'O', 'P', 'Q', 'R', 'S', 'T', 'U', 'V', 'W', 'X', 'Y', 'Z',
   'a', 'b', 'c', 'd', 'e', 'f', 'g', 'h', 'i', 'j', 'k', 'l', 'm',
   'n', 'o', 'p', 'q', 'r', 's', 't', 'u', 'v', 'w', 'x', 'y', 'z',
   '0', '1', '2', '3', '4', '5', '6', '7', '8', '9', '+', '/']

/-- The alphabet character for a sextet value. -/
def encChar (n : Nat) : Char := b64chars.getD n '?'

/-- The sextet value of an alphabet character (none for characters
outside the alphabet, in particular for the padding char `=`). -/
def decChar (c : Char) : Option Nat := b64chars.indexOf? c

/-- `base64.b64encode` on a byte sequence (bytes as naturals `< 256`):
three bytes become four sextet characters; a final partial group is
zero-padded and marked with `=`. -/
def b64encode : List Nat → List Char
  | [] => []
  | [a] => [encChar (a / 4), encChar (a % 4 * 16), '=', '=']
  | [a, b] =>
      [encChar (a / 4), encChar (a % 4 * 16 + b / 16),
        encChar (b % 16 * 4), '=']
  | a :: b :: c :: rest =>
      encChar (a / 4) :: encChar (a % 4 * 16 + b / 16) ::
        encChar (b % 16 * 4 + c / 64) :: encChar (c % 64) ::
        b64encode rest

/-- `base64.b64decode` on a character sequence: groups of four
characters decode to three bytes; `=` padding in the final group yields
one or two bytes (extra low bits are dropped, as `binascii` does); any
other shape (bad length, padding not final, non-alphabet character) is
a decode error, modelled as `none`. -/
def b64decode : List Char → Option (List Nat)
  | [] => some []
  | c₀ :: c₁ :: c₂ :: c₃ :: rest =>
    match decChar c₀, decChar c₁ with
    | some s₀, some s₁ =>
      if c₂ = '=' then
        if c₃ = '=' ∧ rest = [] then some [s₀ * 4 + s₁ / 16] else none
      else
        match decChar c₂ with
        | some s₂ =>
          if c₃ = '=' then
            if rest = [] then
              some [s₀ * 4 + s₁ / 16, s₁ % 16 * 16 + s₂ / 4]
            else none
          else
            match decChar c₃ with
            | some s₃ =>
              match b64decode rest with
              | some tail =>
                some ((s₀ * 4 + s₁ / 16) :: (s₁ % 16 * 16 + s₂ / 4) ::
                  (s₂ % 4 * 64 + s₃) :: tail)
              | none => none
            | none => none
        | none => none
    | _, _ => none
  | _ => none

/-- `convert_to_mp3_and_base64` (lines 166–216): converts the input to
MP3 via ffmpeg (the bytes the conversion would produce are the oracle
`ffmpeg_run`, `.error` meaning `ffmpeg.Error`), base64-encodes those
bytes, computes the size of the encoded string in megabytes, removes the
temporary file, and returns `[base64_encoded_data, base64_size]`.  An
`ffmpeg.Error` is caught, printed, and `None` is returned
(lines 214–216) — modelled as `none`. -/
def convert_to_mp3_and_base64 (ffmpeg_run : Except String (List Nat)) :
    Option (List Char × ℚ) :=
  match ffmpeg_run with
  | .ok mp3Bytes =>
    let base64_encoded_data := b64encode mp3Bytes
    let base64_size : ℚ := (base64_encoded_data.length : ℚ) / (1024 * 1024)
    some (base64_encoded_data, base64_size)
  | .error _ => none

/-- `decode_base64_to_mp3` (lines 219–248): decodes a base64 string and
writes the bytes to the output path; `some bytes` is the content written
there.  Any exception (e.g. a `binascii` decode error) is caught and
printed (lines 247–248), the function returning normally with nothing
written — modelled as `none`. -/
def decode_base64_to_mp3 (base64_data : List Char) : Option (List Nat) :=
  match b64decode base64_data with
  | some mp3_data => some mp3_data
  | none => none

/-- Python `round(x, 2)`, modelled over `ℚ`: round to the nearest
multiple of 1/100. -/
def round2 (q : ℚ) : ℚ := (round (q * 100) : ℚ) / 100

/-- `checkFileSize` (lines 251–266): probes the file size in bytes (the
oracle `getsize`, `.error` meaning `os.path.getsize` raised), divides by
1024*1024 and returns the result rounded to 2 decimal places.  Any
exception is caught and printed, returning `None` (lines 264–266). -/
def checkFileSize (getsize : Except String Nat) : Option ℚ :=
  match getsize with
  | .ok size_bytes => some (round2 ((size_bytes : ℚ) / (1024 * 1024)))
  | .error _ => none

/-- Observable external calls of `trim_audio_to_size`: the
`ffmpeg.probe` of the media duration and the re-encode run
(`ffmpeg.input(...).output(path, t=duration).run(...)`). -/
inductive TrimEffect where
  | probeDuration
  | reencode (path : String) (duration : ℚ)
  deriving Repr, DecidableEq

/-- `trim_audio_to_size` (lines 268–304): if the current size in MB
(`os.path.getsize / (1024*1024)`, the byte count given by the oracle
`size_bytes`) is at most the target, return the input path with no
further calls; otherwise probe the duration (oracle
`probed_duration_seconds`), compute
`(target_size_mb / current_size_mb) * duration_seconds` and re-encode
the file in place to that duration, returning the same path.  The
second component lists the external calls made, in order. -/
def trim_audio_to_size (input_file : String) (size_bytes : Nat)
    (probed_duration_seconds : ℚ) (target_size_mb : ℚ) :
    String × List TrimEffect :=
  let current_size_mb : ℚ := (size_bytes : ℚ) / (1024 * 1024)
  if current_size_mb ≤ target_size_mb then
    (input_file, [])
  else
    let duration_seconds := probed_duration_seconds
    let target_duration_seconds :=
      (target_size_mb / current_size_mb) * duration_seconds
    let output_file := input_file
    (output_file,
      [.probeDuration, .reencode output_file target_duration_seconds])

end RunpodClient

namespace RunpodClient

/-- C1: a job answering IN_QUEUE, IN_PROGRESS, then COMPLETED with payload
`P` makes the waiter issue exactly 3 status queries, sleep the configured
interval after each of the two non-terminal responses, and return
`{status: "COMPLETED", output: P}` with the output passed through as-is
(possibly absent). -/
theorem wait_three_step_completion (interval : Nat) (o₁ o₂ : Option String)
    (P : Option String) :
    wait_for_transcription_completion interval
        [⟨"IN_QUEUE", o₁⟩, ⟨"IN_PROGRESS", o₂⟩, ⟨"COMPLETED", P⟩] =
      (.completed P,
        [.statusQuery, .sleep interval, .statusQuery, .sleep interval,
          .statusQuery]) := by
  simp [wait_for_transcription_completion]

/-- C2: if the very first status response is terminal and not COMPLETED
(e.g. FAILED), the waiter raises the job-failure error carrying that
status string after exactly one query and no sleep. -/
theorem wait_immediate_failure (interval : Nat) (s : String)
    (o : Option String) (rest : List StatusResponse)
    (h₁ : s ≠ "IN_QUEUE") (h₂ : s ≠ "IN_PROGRESS") (h₃ : s ≠ "COMPLETED") :
    wait_for_transcription_completion interval (⟨s, o⟩ :: rest) =
      (.jobFailed s, [.statusQuery]) := by
  simp [wait_for_transcription_completion, h₁, h₂, h₃]

/-- Witness for C2 at the concrete status "FAILED". -/
theorem wait_immediate_failure_witness :
    wait_for_transcription_completion 20 [⟨"FAILED", none⟩] =
      (.jobFailed "FAILED", [.statusQuery]) :=
  wait_immediate_failure 20 "FAILED" none [] (by decide) (by decide)
    (by decide)

/-- C3: the submission payload keys the audio under `audio_url` exactly
when the input starts with "http" and under `audio_base_64` otherwise;
no payload ever carries both keys. -/
theorem submit_payload_exclusive_key (s : String) (t : Nat) :
    ((build_submit_payload s t).input.lookup "audio_url" = some s ∧
      (build_submit_payload s t).input.lookup "audio_base_64" = none ∧
      s.startsWith "http" = true) ∨
    ((build_submit_payload s t).input.lookup "audio_base_64" = some s ∧
      (build_submit_payload s t).input.lookup "audio_url" = none ∧
      s.startsWith "http" = false) := by
  unfold build_submit_payload
  by_cases h : s.startsWith "http" = true
  · left
    rw [if_pos h]
    exact ⟨rfl, rfl, h⟩
  · right
    rw [if_neg h]
    exact ⟨rfl, rfl, by simpa using h⟩

/-- C5: a file whose current size is at most the target is returned
unchanged, with no duration probe and no re-encode run issued. -/
theorem trim_noop_when_within_target (input_file : String)
    (size_bytes : Nat) (dur target : ℚ)
    (h : (size_bytes : ℚ) / (1024 * 1024) ≤ target) :
    trim_audio_to_size input_file size_bytes dur target =
      (input_file, []) := by
  simp [trim_audio_to_size, h]

/-- Witness for C5: a 1 MiB file against a 1 MB target. -/
theorem trim_noop_when_within_target_witness :
    ((1048576 : ℚ) / (1024 * 1024) ≤ 1) ∧
      trim_audio_to_size "audio.mp3" 1048576 10 1 = ("audio.mp3", []) :=
  ⟨by norm_num,
    trim_noop_when_within_target "audio.mp3" 1048576 10 1 (by norm_num)⟩

/-- C6: a file exceeding the target size is probed for its duration and
re-encoded in place to `(target_size_mb / current_size_mb) * duration`,
the same path being returned. -/
theorem trim_reencodes_when_over_target (input_file : String)
    (size_bytes : Nat) (dur target : ℚ)
    (h : target < (size_bytes : ℚ) / (1024 * 1024)) :
    trim_audio_to_size input_file size_bytes dur target =
      (input_file,
        [.probeDuration,
          .reencode input_file
            ((target / ((size_bytes : ℚ) / (1024 * 1024))) * dur)]) := by
  simp [trim_audio_to_size, not_le.mpr h]

/-- Witness for C6: a 2 MiB file against a 1 MB target with a
100-second duration is re-encoded to 50 seconds. -/
theorem trim_reencodes_when_over_target_witness :
    ((1 : ℚ) < (2097152 : ℚ) / (1024 * 1024)) ∧
      trim_audio_to_size "audio.mp3" 2097152 100 1 =
        ("audio.mp3",
          [.probeDuration,
            .reencode "audio.mp3"
              ((1 / ((2097152 : ℚ) / (1024 * 1024))) * 100)]) :=
  ⟨by norm_num,
    trim_reencodes_when_over_target "audio.mp3" 2097152 100 1 (by norm_num)⟩

/-- C8: for a file of any known byte length `n` the size probe returns
`n / (1024*1024)` rounded to 2 decimal places: a value with at most two
decimal digits within half a hundredth of the exact quotient — and a
1,048,576-byte file yields exactly 1. -/
theorem checkFileSize_reports_rounded_megabytes (n : Nat) :
    ∃ r : ℚ, checkFileSize (.ok n) = some r ∧
      (r * 100).den = 1 ∧
      |r - (n : ℚ) / (1024 * 1024)| ≤ 1 / 200 := by
  refine ⟨round2 ((n : ℚ) / (1024 * 1024)), rfl, ?_, ?_⟩
  · unfold round2
    rw [div_mul_cancel₀ _ (by norm_num : (100 : ℚ) ≠ 0)]
    exact Rat.den_intCast _
  · unfold round2
    set q : ℚ := (n : ℚ) / (1024 * 1024)
    have h : |q * 100 - (round (q * 100) : ℚ)| ≤ 1 / 2 := abs_sub_round _
    have h2 : (round (q * 100) : ℚ) / 100 - q =
        -((q * 100 - (round (q * 100) : ℚ)) / 100) := by ring
    rw [h2, abs_neg, abs_div, abs_of_pos (by norm_num : (0 : ℚ) < 100)]
    linarith

/-- C9: the submission returns exactly the `id` field of the remote
response when present, and fails with a key-lookup error when the
response lacks it. -/
theorem send_async_id_extraction (s : String) (t : Nat)
    (response : List (String × String)) :
    ((send_async_transcription_request s t response).2 =
        .error "KeyError: id" ↔ response.lookup "id" = none) ∧
    (∀ v, (send_async_transcription_request s t response).2 = .ok v ↔
        response.lookup "id" = some v) := by
  have h2 : (send_async_transcription_request s t response).2 =
      match response.lookup "id" with
      | some jobId => .ok jobId
      | none => .error "KeyError: id" := rfl
  cases h : response.lookup "id" with
  | none => rw [h] at h2; simp [h2, h]
  | some v => rw [h] at h2; simp [h2, h]

/-- C10: `transcribe_audio` always submits with the default execution
timeout of 600000 ms: the policy object of the payload it causes carries
`executionTimeout = 600000` on every call (the composed operation takes
no timeout argument and forwards none). -/
theorem transcribe_audio_default_timeout (s : String) (interval : Nat)
    (submit_response : List (String × String))
    (status_responses : List StatusResponse) :
    (transcribe_audio s interval submit_response
        status_responses).1.policy.lookup "executionTimeout" =
      some 600000 := by
  unfold transcribe_audio send_async_transcription_request
  cases h : submit_response.lookup "id" <;>
    · simp only [h]
      unfold build_submit_payload default_execution_timeout
      by_cases hs : s.startsWith "http" = true
      · rw [if_pos hs]; rfl
      · rw [if_neg hs]; rfl

/-- C4 counterexample: a media-conversion failure does not propagate —
`convert_to_mp3_and_base64` catches the `ffmpeg.Error` and converts it
into the normal return value `None`. -/
theorem convert_error_swallowed :
    convert_to_mp3_and_base64 (.error "ffmpeg.Error") = none := rfl

/-- C4 (amended): the three preprocessing operations recover locally —
`convert_to_mp3_and_base64` and `checkFileSize` catch any error and
return `None`, and `decode_base64_to_mp3` catches decode errors and
returns normally with nothing written. -/
theorem preprocessing_errors_recovered_locally (e : String) :
    convert_to_mp3_and_base64 (.error e) = none ∧
    checkFileSize (.error e) = none ∧
    decode_base64_to_mp3 ['A'] = none :=
  ⟨rfl, rfl, rfl⟩

/-- Decoding a sextet character inverts encoding it. -/
theorem decChar_encChar : ∀ n < 64, decChar (encChar n) = some n := by
  decide

/-- No alphabet character is the padding character. -/
theorem encChar_ne_pad : ∀ n < 64, encChar n ≠ '=' := by
  decide

/-- Decoding inverts encoding on any byte sequence. -/
theorem b64decode_b64encode (l : List Nat) :
    (∀ b ∈ l, b < 256) → b64decode (b64encode l) = some l := by
  induction l using b64encode.induct with
  | case1 => intro _; rfl
  | case2 a =>
    intro h
    have ha : a < 256 := h a (by simp)
    have h0 := decChar_encChar (a / 4) (by omega)
    have h1 := decChar_encChar (a % 4 * 16) (by omega)
    simp only [b64encode, b64decode, h0, h1]
    simp only [reduceIte, and_self, Option.some.injEq, List.cons.injEq,
      and_true]
    omega
  | case3 a b =>
    intro h
    have ha : a < 256 := h a (by simp)
    have hb : b < 256 := h b (by simp)
    have h0 := decChar_encChar (a / 4) (by omega)
    have h1 := decChar_encChar (a % 4 * 16 + b / 16) (by omega)
    have h2 := decChar_encChar (b % 16 * 4) (by omega)
    have hne := encChar_ne_pad (b % 16 * 4) (by omega)
    simp only [b64encode, b64decode, h0, h1, h2, if_neg hne]
    simp only [reduceIte, Option.some.injEq, List.cons.injEq, and_true]
    omega
  | case4 a b c rest ih =>
    intro h
    have ha : a < 256 := h a (by simp)
    have hb : b < 256 := h b (by simp)
    have hc : c < 256 := h c (by simp)
    have hrest : ∀ x ∈ rest, x < 256 := fun x hx => h x (by simp [hx])
    have h0 := decChar_encChar (a / 4) (by omega)
    have h1 := decChar_encChar (a % 4 * 16 + b / 16) (by omega)
    have h2 := decChar_encChar (b % 16 * 4 + c / 64) (by omega)
    have h3 := decChar_encChar (c % 64) (by omega)
    have hne2 := encChar_ne_pad (b % 16 * 4 + c / 64) (by omega)
    have hne3 := encChar_ne_pad (c % 64) (by omega)
    simp only [b64encode, b64decode, h0, h1, h2, h3, if_neg hne2,
      if_neg hne3, ih hrest]
    simp only [Option.some.injEq, List.cons.injEq, and_true, true_and]
    refine ⟨by omega, by omega, by omega⟩

/-- C7: round-trip — base64-encoding the converted file's bytes (as
`convert_to_mp3_and_base64` does) and then decoding that string and
writing it out (as `decode_base64_to_mp3` does) reproduces byte-identical
content. -/
theorem base64_roundtrip (bytes : List Nat) (h : ∀ b ∈ bytes, b < 256) :
    ∃ size : ℚ,
      convert_to_mp3_and_base64 (.ok bytes) =
        some (b64encode bytes, size) ∧
      decode_base64_to_mp3 (b64encode bytes) = some bytes := by
  refine ⟨((b64encode bytes).length : ℚ) / (1024 * 1024), rfl, ?_⟩
  unfold decode_base64_to_mp3
  rw [b64decode_b64encode bytes h]

/-- Witness for C7 on a concrete byte sequence. -/
theorem base64_roundtrip_witness :
    (∀ b ∈ [77, 112, 51, 7], b < 256) ∧
    ∃ size : ℚ,
      convert_to_mp3_and_base64 (.ok [77, 112, 51, 7]) =
        some (b64encode [77, 112, 51, 7], size) ∧
      decode_base64_to_mp3 (b64encode [77, 112, 51, 7]) =
        some [77, 112, 51, 7] :=
  ⟨by decide, base64_roundtrip [77, 112, 51, 7] (by decide)⟩

end RunpodClient
